import Mathlib

/-!
Shallow embedding of `openai-local-proxy/proxy_server.py` (the request/response
translation and streaming relay pipeline) together with proofs about its helper
functions and endpoint handlers.

Conventions used throughout:

* Python JSON values (the results of `json.loads`) are modelled by the `Json`
  inductive below.  JSON numbers are modelled as integers; payloads with
  fractional or exponent parts are outside the model.
* Python `dict`s are modelled as insertion-ordered association lists with
  unique keys.  `d[k] = v` keeps the position of an existing key and appends a
  new key at the end, exactly like a Python dict.
* Functions that can raise a Python exception are modelled with
  `Except String`, the `String` carrying the exception rendered as text
  (quotes that appear in the CPython messages are dropped).
* The module-level `config` object is passed explicitly as a `ProxyConfig`
  argument.
-/

namespace ProxyServer

/-- A Python value obtained from `json.loads` (numbers restricted to integers). -/
inductive Json where
  | null
  | bool (b : Bool)
  | num (n : Int)
  | str (s : String)
  | arr (elems : List Json)
  | obj (fields : List (String × Json))
  deriving Repr

/-! ## Python dict primitives

An insertion-ordered association list.  `dictLookup` is `d.get(k)`,
`dictGetD` is `d.get(k, dflt)`, `dictContains` is `k in d` and `dictSet` is
`d[k] = v` (update in place when the key exists, append otherwise). -/

def dictLookup {α : Type} : List (String × α) → String → Option α
  | [], _ => none
  | (k, v) :: rest, key => if k = key then some v else dictLookup rest key

def dictGetD {α : Type} (d : List (String × α)) (key : String) (dflt : α) : α :=
  (dictLookup d key).getD dflt

def dictContains {α : Type} (d : List (String × α)) (key : String) : Bool :=
  (dictLookup d key).isSome

def dictSet {α : Type} : List (String × α) → String → α → List (String × α)
  | [], key, v => [(key, v)]
  | (k, w) :: rest, key, v =>
    if k = key then (key, v) :: rest else (k, w) :: dictSet rest key v

/-- The last element of a list satisfying a predicate (used to state the
last-entry-wins behaviour of the reverse model map). -/
def findLast {α : Type} (f : α → Bool) : List α → Option α
  | [] => none
  | a :: rest =>
    match findLast f rest with
    | some b => some b
    | none => if f a then some a else none

/-! ## Python `str.strip()`

`str.strip()` with no argument removes the six ASCII whitespace characters
recognised by Python from both ends. -/

def isPySpace (c : Char) : Bool :=
  c = ' ' ∨ c = '\t' ∨ c = '\n' ∨ c = '\r' ∨ c = '\x0b' ∨ c = '\x0c'

def pyStripChars (cs : List Char) : List Char :=
  ((cs.dropWhile isPySpace).reverse.dropWhile isPySpace).reverse

def pyStrip (s : String) : String :=
  ⟨pyStripChars s.data⟩

/-! ## The JSON decoder (`json.loads`)

A fuel-indexed recursive-descent parser for the JSON grammar as accepted by
Python in strict mode: the four whitespace characters, `null`/`true`/`false`,
double-quoted strings with the standard escapes and `\uXXXX` (lone surrogates
are replaced, surrogate pairs are not recombined), integers without leading
zeros, arrays and objects.  Duplicate object keys follow dict semantics: the
last value wins while the first position is kept.  Fractional and exponent
number forms as well as `NaN`/`Infinity` are outside the model. -/

def skipWs : List Char → List Char :=
  List.dropWhile fun c => c = ' ' ∨ c = '\t' ∨ c = '\n' ∨ c = '\r'

def hexVal (c : Char) : Option Nat :=
  if '0' ≤ c ∧ c ≤ '9' then some (c.toNat - 48)
  else if 'a' ≤ c ∧ c ≤ 'f' then some (c.toNat - 87)
  else if 'A' ≤ c ∧ c ≤ 'F' then some (c.toNat - 55)
  else none

def escChar (c : Char) : Option Char :=
  if c = '"' then some '"'
  else if c = '\\' then some '\\'
  else if c = '/' then some '/'
  else if c = 'b' then some '\x08'
  else if c = 'f' then some '\x0c'
  else if c = 'n' then some '\n'
  else if c = 'r' then some '\r'
  else if c = 't' then some '\t'
  else none

def digitsToNat (ds : List Char) : Nat :=
  ds.foldl (fun acc c => acc * 10 + (c.toNat - 48)) 0

def parseNat (cs : List Char) : Option (Nat × List Char) :=
  let p := cs.span Char.isDigit
  match p.1 with
  | [] => none
  | [d] => some (digitsToNat [d], p.2)
  | d :: ds =>
    if d = '0' then none  -- JSON rejects leading zeros
    else some (digitsToNat (d :: ds), p.2)

def parseNumber (cs : List Char) : Option (Int × List Char) :=
  match cs with
  | '-' :: rest =>
    match parseNat rest with
    | some (n, r) => some (-(n : Int), r)
    | none => none
  | _ =>
    match parseNat cs with
    | some (n, r) => some ((n : Int), r)
    | none => none

def parseStringBody : Nat → List Char → Option (List Char × List Char)
  | 0, _ => none
  | fuel + 1, cs =>
    match cs with
    | [] => none
    | '"' :: rest => some ([], rest)
    | '\\' :: e :: rest =>
      match escChar e with
      | some c =>
        match parseStringBody fuel rest with
        | some (s, r) => some (c :: s, r)
        | none => none
      | none =>
        if e = 'u' then
          match rest with
          | h1 :: h2 :: h3 :: h4 :: rest2 =>
            match hexVal h1, hexVal h2, hexVal h3, hexVal h4 with
            | some a, some b, some c, some d =>
              let code := ((a * 16 + b) * 16 + c) * 16 + d
              -- a lone surrogate cannot inhabit `Char`; it is replaced
              let ch := if 0xd800 ≤ code ∧ code < 0xe000 then
                  Char.ofNat 0xfffd
                else Char.ofNat code
              match parseStringBody fuel rest2 with
              | some (s, r) => some (ch :: s, r)
              | none => none
            | _, _, _, _ => none
          | _ => none
        else none
    | c :: rest =>
      if c.toNat < 0x20 then none  -- strict mode rejects raw control characters
      else
        match parseStringBody fuel rest with
        | some (s, r) => some (c :: s, r)
        | none => none

mutual

def parseValue : Nat → List Char → Option (Json × List Char)
  | 0, _ => none
  | fuel + 1, cs =>
    match skipWs cs with
    | 'n' :: 'u' :: 'l' :: 'l' :: rest => some (Json.null, rest)
    | 't' :: 'r' :: 'u' :: 'e' :: rest => some (Json.bool true, rest)
    | 'f' :: 'a' :: 'l' :: 's' :: 'e' :: rest => some (Json.bool false, rest)
    | '"' :: rest =>
      match parseStringBody fuel rest with
      | some (s, r) => some (Json.str ⟨s⟩, r)
      | none => none
    | '[' :: rest =>
      match parseArrayItems fuel (skipWs rest) true with
      | some (xs, r) => some (Json.arr xs, r)
      | none => none
    | '{' :: rest =>
      match parseObjectItems fuel (skipWs rest) true [] with
      | some (fs, r) => some (Json.obj fs, r)
      | none => none
    | other =>
      match parseNumber other with
      | some (n, r) => some (Json.num n, r)
      | none => none

def parseArrayItems : Nat → List Char → Bool → Option (List Json × List Char)
  | 0, _, _ => none
  | fuel + 1, cs, first =>
    match cs with
    | ']' :: rest => if first then some ([], rest) else none
    | _ =>
      match parseValue fuel cs with
      | none => none
      | some (v, r) =>
        match skipWs r with
        | ',' :: r2 =>
          match parseArrayItems fuel (skipWs r2) false with
          | some (vs, r3) => some (v :: vs, r3)
          | none => none
        | ']' :: r2 => some ([v], r2)
        | _ => none

def parseObjectItems : Nat → List Char → Bool →
    List (String × Json) → Option (List (String × Json) × List Char)
  | 0, _, _, _ => none
  | fuel + 1, cs, first, acc =>
    match cs with
    | '}' :: rest => if first then some (acc, rest) else none
    | '"' :: rest =>
      match parseStringBody fuel rest with
      | none => none
      | some (k, r) =>
        match skipWs r with
        | ':' :: r2 =>
          match parseValue fuel r2 with
          | none => none
          | some (v, r3) =>
            let acc2 := dictSet acc ⟨k⟩ v
            match skipWs r3 with
            | ',' :: r4 => parseObjectItems fuel (skipWs r4) false acc2
            | '}' :: r4 => some (acc2, r4)
            | _ => none
        | _ => none
    | _ => none

end

/-- The decoder `json.loads`: parse one value and require only whitespace after
it.  `none` models a raised `json.JSONDecodeError`. -/
def json_loads (s : String) : Option Json :=
  match parseValue (s.data.length + 1) s.data with
  | some (v, rest) => if skipWs rest = [] then some v else none
  | none => none

/-! ## The JSON encoder (`json.dumps`)

Python defaults: item separator `", "`, key separator `": "`, `ensure_ascii`
on (characters below `0x20` and above `0x7e` become `\uXXXX`, non-BMP
characters become surrogate pairs), keys in dict insertion order. -/

def hexDig (n : Nat) : Char :=
  if n < 10 then Char.ofNat (48 + n) else Char.ofNat (87 + n)

def hexDigits4 (n : Nat) : List Char :=
  [hexDig (n / 4096 % 16), hexDig (n / 256 % 16), hexDig (n / 16 % 16), hexDig (n % 16)]

def escapeChar (c : Char) : List Char :=
  if c = '"' then ['\\', '"']
  else if c = '\\' then ['\\', '\\']
  else if c = '\n' then ['\\', 'n']
  else if c = '\r' then ['\\', 'r']
  else if c = '\t' then ['\\', 't']
  else if c = '\x08' then ['\\', 'b']
  else if c = '\x0c' then ['\\', 'f']
  else if c.toNat < 0x20 ∨ 0x7f ≤ c.toNat then
    if c.toNat < 0x10000 then '\\' :: 'u' :: hexDigits4 c.toNat
    else
      '\\' :: 'u' :: hexDigits4 (0xd800 + (c.toNat - 0x10000) / 1024) ++
        '\\' :: 'u' :: hexDigits4 (0xdc00 + (c.toNat - 0x10000) % 1024)
  else [c]

def escapeChars (cs : List Char) : List Char :=
  (cs.map escapeChar).flatten

def dumpStringChars (s : String) : List Char :=
  '"' :: escapeChars s.data ++ ['"']

mutual

def dumpChars : Json → List Char
  | Json.null => "null".data
  | Json.bool true => "true".data
  | Json.bool false => "false".data
  | Json.num n => (Int.repr n).data
  | Json.str s => dumpStringChars s
  | Json.arr xs => '[' :: dumpCharsList xs ++ [']']
  | Json.obj fs => '{' :: dumpCharsMembers fs ++ ['}']

def dumpCharsList : List Json → List Char
  | [] => []
  | [x] => dumpChars x
  | x :: y :: rest => dumpChars x ++ ',' :: ' ' :: dumpCharsList (y :: rest)

def dumpCharsMembers : List (String × Json) → List Char
  | [] => []
  | [(k, v)] => dumpStringChars k ++ ':' :: ' ' :: dumpChars v
  | (k, v) :: m :: rest =>
    dumpStringChars k ++ ':' :: ' ' :: dumpChars v ++ ',' :: ' ' :: dumpCharsMembers (m :: rest)

end

/-- The encoder `json.dumps` with its default options. -/
def json_dumps (j : Json) : String :=
  ⟨dumpChars j⟩

/-- Python truthiness of a JSON value, as used by `if stream:`. -/
def jsonTruthy : Json → Bool
  | Json.null => false
  | Json.bool b => b
  | Json.num n => n ≠ 0
  | Json.str s => s.data ≠ []
  | Json.arr xs => !xs.isEmpty
  | Json.obj fs => !fs.isEmpty

/-! ## Configuration (`AuthConfig`, `ProxyConfig`, lines 53-71)

Only the fields consumed by the pipeline are modelled: `server`, `backends`
and `logging` have no influence on the pure behaviour of the functions below
(the logging flags only gate debug-log side effects).  Note that `ProxyConfig`
declares **no** field named `response`; this matters for
`transform_response_body` below. -/

structure AuthConfig where
  enabled : Bool
  valid_api_keys : List String

structure ProxyConfig where
  model_mapping : List (String × String)
  default_model : String
  authentication : AuthConfig

/-! ## `map_model_name` (lines 149-166) -/

/-- The reverse table `{v: k for k, v in config.model_mapping.items()}`:
a dict comprehension over the mapping in insertion order, so a repeated
internal name is overwritten by the later entry (last entry wins). -/
def reverse_map (mapping : List (String × String)) : List (String × String) :=
  mapping.foldl (fun acc p => dictSet acc p.2 p.1) []

/-- `map_model_name(model, reverse)`: forward lookup is
`config.model_mapping.get(model, model)`, reverse lookup is
`reverse_map.get(model, model)`. -/
def map_model_name (mapping : List (String × String)) (model : String)
    (reverse : Bool) : String :=
  if reverse then dictGetD (reverse_map mapping) model model
  else dictGetD mapping model model

/-! ## `validate_api_key` (lines 169-190) -/

/-- The check `authorization.startswith("Bearer ")` together with the slice
`authorization[7:]`: the seven prefix characters are matched exactly
(case-sensitively) and the remainder is returned. -/
def bearerToken : List Char → Option (List Char)
  | 'B' :: 'e' :: 'a' :: 'r' :: 'e' :: 'r' :: ' ' :: t => some t
  | _ => none

/-- `validate_api_key(authorization)`.  A `none` argument models a missing
header (Python `None`); note that `if not authorization:` also treats the
empty string as missing, which coincides with the prefix test failing. -/
def validate_api_key (cfg : ProxyConfig) (authorization : Option String) : Bool :=
  if !cfg.authentication.enabled then true
  else
    match authorization with
    | none => false
    | some a =>
      match bearerToken a.data with
      | some token => cfg.authentication.valid_api_keys.contains (⟨token⟩ : String)
      | none => false

/-! ## `transform_request_body` (lines 193-215) -/

/-- Whether a JSON value is hashable in Python (usable as a `dict.get` key).
Lists and dicts are unhashable; everything else hashes fine. -/
def jsonHashable : Json → Bool
  | Json.arr _ => false
  | Json.obj _ => false
  | _ => true

/-- The call `map_model_name(transformed["model"])` on an arbitrary JSON
value: `config.model_mapping.get(v, v)` maps a string through the table,
returns any other hashable value unchanged (the table keys are strings, so no
non-string value can match a key), and raises `TypeError` on an unhashable
value. -/
def map_model_value (mapping : List (String × String)) : Json → Except String Json
  | Json.str s => Except.ok (Json.str (map_model_name mapping s false))
  | Json.arr _ => Except.error "TypeError: unhashable type: list"
  | Json.obj _ => Except.error "TypeError: unhashable type: dict"
  | v => Except.ok v

/-- `transform_request_body(body)`: copy the body, then replace the `model`
value through `map_model_name` when the field is present, or insert the
configured default model when it is absent.  The `body.copy()` of the source
is value semantics here.  The debug log (lines 212-213) is a side effect only
and is not modelled. -/
def transform_request_body (cfg : ProxyConfig) (body : List (String × Json)) :
    Except String (List (String × Json)) :=
  match dictLookup body "model" with
  | some v =>
    match map_model_value cfg.model_mapping v with
    | Except.ok v2 => Except.ok (dictSet body "model" v2)
    | Except.error e => Except.error e
  | none => Except.ok (dictSet body "model" (Json.str cfg.default_model))

/-- The value that ends up in the `model` field of a successfully transformed
request body (derived helper used to state theorems). -/
def requestModelValue (cfg : ProxyConfig) (body : List (String × Json)) : Json :=
  match dictLookup body "model" with
  | some (Json.str s) => Json.str (map_model_name cfg.model_mapping s false)
  | some v => v
  | none => Json.str cfg.default_model

/-! ## `transform_response_body` (lines 218-264) -/

/-- `transform_response_body(body, original_model)`.  The first three
normalisation steps (model overwrite, `object` back-fill, `created`
back-fill) execute as written; then line 244 evaluates
`config.response.get("add_usage_stats", True)` — but `ProxyConfig` declares
no field `response`, so this attribute access raises `AttributeError` on
every call, before the usage back-fill can happen.  `now` stands for
`int(time.time())`. -/
def transform_response_body (cfg : ProxyConfig) (body : List (String × Json))
    (original_model : Json) (now : Int) : Except String (List (String × Json)) :=
  -- transformed = body.copy()
  let transformed := body
  -- lines 232-233: map the model name back
  let transformed :=
    if dictContains transformed "model" then dictSet transformed "model" original_model
    else transformed
  -- lines 236-238: object back-fill
  let transformed :=
    if !dictContains transformed "object" then
      if dictContains transformed "choices" then
        dictSet transformed "object" (Json.str "chat.completion")
      else transformed
    else transformed
  -- lines 240-241: created back-fill
  let _transformed :=
    if !dictContains transformed "created" then dictSet transformed "created" (Json.num now)
    else transformed
  -- line 244: `config.response` does not exist on `ProxyConfig` (its fields
  -- are `server`, `backends`, `model_mapping`, `default_model`,
  -- `authentication`, `logging`), so the condition raises before `and` and
  -- before the `"usage" not in transformed` test is reached.
  let _ := cfg
  Except.error "AttributeError: ProxyConfig object has no attribute response"

/-! ## `forward_request` (lines 267-322) -/

/-- A raised `fastapi.HTTPException` (status code and detail). -/
structure HTTPError where
  status : Nat
  detail : String
  deriving Repr, DecidableEq

/-- `str(e)` for a Starlette/FastAPI `HTTPException`, whose `__str__` renders
as `"{status_code}: {detail}"`. -/
def pyStrHTTPError (e : HTTPError) : String :=
  Nat.repr e.status ++ ": " ++ e.detail

/-- The backend reply as seen through the `httpx.Response` interface:
`status_code`, `text` (parsed on demand by `response.json()`) and the line
sequence produced by `aiter_lines()` for streaming. -/
structure BackendResponse where
  status : Nat
  text : String
  lines : List String

/-- The outcome of the outbound `httpx` call: a reply, a transport-level
timeout (`httpx.TimeoutException`) or any other transport error
(`httpx.RequestError`, carrying `str(e)`). -/
inductive ForwardOutcome where
  | ok (resp : BackendResponse)
  | timeout
  | requestError (msg : String)

/-- `forward_request(method, path, ...)`: unsupported methods raise a 405
`HTTPException` (line 313); a transport timeout raises a 504 with detail
`"Backend timeout"` (line 319); any other transport error raises a 502 with
detail `"Backend error: " + str(e)` (line 322).  URL construction, header
stripping and the actual `httpx` calls are abstracted into `outcome`. -/
def forward_request (method : String) (outcome : ForwardOutcome) :
    Except HTTPError BackendResponse :=
  if method = "GET" ∨ method = "POST" ∨ method = "DELETE" then
    match outcome with
    | ForwardOutcome.ok r => Except.ok r
    | ForwardOutcome.timeout => Except.error ⟨504, "Backend timeout"⟩
    | ForwardOutcome.requestError msg =>
      Except.error ⟨502, "Backend error: " ++ msg⟩
  else
    Except.error ⟨405, "Method " ++ method ++ " not supported"⟩

/-! ## `stream_response` (lines 325-357) -/

/-- Python substring containment, `pat in s` for strings. -/
def listHasSub (pat : List Char) : List Char → Bool
  | [] => pat.isEmpty
  | c :: rest => pat.isPrefixOf (c :: rest) || listHasSub pat rest

/-- The body of the `try` block at lines 348-354 once `json.loads` has
succeeded: `if "model" in chunk: chunk["model"] = original_model`, then
`json.dumps(chunk)`.  Python `in` on a dict tests the keys; on a string it
tests substring containment; on a list it tests element equality; on a
number, boolean or `None` it raises `TypeError`.  When the membership test
succeeds on a string or a list, the subsequent item assignment raises
`TypeError` as well.  Only `json.JSONDecodeError` is caught by the source, so
these `TypeError`s escape the generator. -/
def set_chunk_model (original_model : Json) : Json → Except String Json
  | Json.obj fields =>
    if dictContains fields "model" then
      Except.ok (Json.obj (dictSet fields "model" original_model))
    else Except.ok (Json.obj fields)
  | Json.str s =>
    if listHasSub "model".data s.data then
      Except.error "TypeError: str object does not support item assignment"
    else Except.ok (Json.str s)
  | Json.arr xs =>
    if xs.any (fun x => match x with | Json.str t => t = "model" | _ => false) then
      Except.error "TypeError: list indices must be integers or slices, not str"
    else Except.ok (Json.arr xs)
  | Json.num _ => Except.error "TypeError: argument of type int is not iterable"
  | Json.bool _ => Except.error "TypeError: argument of type bool is not iterable"
  | Json.null => Except.error "TypeError: argument of type NoneType is not iterable"

/-- One iteration of the `async for line in response.aiter_lines()` loop
(lines 336-357), producing the chunks yielded for that line or the exception
it raises.  `line.startswith("data: ")` and the slice `line[6:]` are modelled
by matching the six prefix characters of `line`. -/
def process_line (original_model : Json) (line : String) : Except String (List String) :=
  -- `if not line.strip(): continue`
  if pyStrip line = "" then Except.ok []
  else
    match line.data with
    | 'd' :: 'a' :: 't' :: 'a' :: ':' :: ' ' :: dataChars =>
      let data : String := ⟨dataChars⟩
      if pyStrip data = "[DONE]" then Except.ok ["data: [DONE]\n\n"]
      else
        match json_loads data with
        | some chunk =>
          match set_chunk_model original_model chunk with
          | Except.ok c => Except.ok ["data: " ++ json_dumps c ++ "\n\n"]
          | Except.error e => Except.error e
        | none =>
          -- pass through if not valid JSON (lines 355-357)
          Except.ok ["data: " ++ data ++ "\n\n"]
    | _ =>
      -- a non-blank line without the SSE prefix produces no output
      Except.ok []

/-- `stream_response(response, original_model)` over the whole line sequence:
the chunks yielded in order, together with the exception (if any) that
aborted the generator.  Lines after an aborting line are not consumed. -/
def stream_response (lines : List String) (original_model : Json) :
    List String × Option String :=
  match lines with
  | [] => ([], none)
  | l :: rest =>
    match process_line original_model l with
    | Except.ok out =>
      let r := stream_response rest original_model
      (out ++ r.1, r.2)
    | Except.error e => ([], some e)

/-! ## The `/v1/chat/completions` and `/v1/completions` endpoints
(lines 404-451 and 454-490)

The handler result as seen by the client: a `StreamingResponse` (FastAPI
sends these with status 200 and the given media type; `events`/`abortError`
are the output of `stream_response`), a JSON reply, or an `HTTPException`
turned into an error reply.

A crucial detail of both handlers: everything after the auth check runs
inside `try: ... except Exception as e: raise HTTPException(500, str(e))`,
and `HTTPException` is itself a subclass of `Exception`.  So an
`HTTPException` raised *inside* the `try` block — the 504/502 from
`forward_request` as well as the explicit
`HTTPException(response.status_code, response.text)` for a non-200 backend
reply — is caught at line 449 and re-raised as a 500 whose detail is
`str(e)`. -/

inductive EndpointResult where
  | streamed (status : Nat) (mediaType : String) (events : List String)
      (abortError : Option String)
  | jsonBody (status : Nat) (body : List (String × Json))
  | failed (status : Nat) (detail : String)
  deriving Repr

/-- `POST /v1/chat/completions` (lines 404-451).  `requestText` is the raw
request body (`await request.json()` is `json.loads` of it), `outcome` is the
transport outcome of the backend call, `now` is `int(time.time())`. -/
def chat_completions (cfg : ProxyConfig) (authorization : Option String)
    (requestText : String) (outcome : ForwardOutcome) (now : Int) : EndpointResult :=
  if !validate_api_key cfg authorization then
    EndpointResult.failed 401 "Invalid API key"
  else
    match json_loads requestText with
    | none =>
      -- request.json() raises json.JSONDecodeError, caught at line 447
      EndpointResult.failed 400 "Invalid JSON in request body"
    | some (Json.obj body) =>
      let original_model := dictGetD body "model" (Json.str "gpt-3.5-turbo")
      let stream := jsonTruthy (dictGetD body "stream" (Json.bool false))
      match transform_request_body cfg body with
      | Except.error e =>
        -- e.g. TypeError for an unhashable model value: except Exception -> 500
        EndpointResult.failed 500 e
      | Except.ok _transformed =>
        match forward_request "POST" outcome with
        | Except.error e =>
          -- the HTTPException raised by forward_request is an Exception, so it
          -- is caught at line 449 and re-raised as HTTPException(500, str(e))
          EndpointResult.failed 500 (pyStrHTTPError e)
        | Except.ok resp =>
          if stream then
            EndpointResult.streamed 200 "text/event-stream"
              (stream_response resp.lines original_model).1
              (stream_response resp.lines original_model).2
          else if resp.status = 200 then
            match json_loads resp.text with
            | none =>
              -- response.json() raises json.JSONDecodeError, caught at line 447
              EndpointResult.failed 400 "Invalid JSON in request body"
            | some (Json.obj data) =>
              match transform_response_body cfg data original_model now with
              | Except.error e => EndpointResult.failed 500 e
              | Except.ok t => EndpointResult.jsonBody 200 t
            | some _ =>
              -- a non-dict 200 body makes transform_response_body raise
              -- (e.g. `transformed["created"] = ...` on a list, `.copy` on a
              -- scalar); caught at line 449 -> 500
              EndpointResult.failed 500 "TypeError: response body is not an object"
          else
            -- raise HTTPException(response.status_code, response.text): caught
            -- at line 449 and re-raised as HTTPException(500, str(e))
            EndpointResult.failed 500 (pyStrHTTPError ⟨resp.status, resp.text⟩)
    | some _ =>
      -- body.get on a non-dict raises AttributeError; caught at line 449
      EndpointResult.failed 500 "AttributeError: object has no attribute get"

/-- `POST /v1/completions` (lines 454-490).  Identical pipeline except for
the default model name and the absence of the `except json.JSONDecodeError`
clause: a JSON parse failure falls into `except Exception` and yields a 500
whose detail is `str(e)` (a `json.JSONDecodeError` message such as
`Expecting value: line 1 column 1 (char 0)`). -/
def completions (cfg : ProxyConfig) (authorization : Option String)
    (requestText : String) (outcome : ForwardOutcome) (now : Int) : EndpointResult :=
  if !validate_api_key cfg authorization then
    EndpointResult.failed 401 "Invalid API key"
  else
    match json_loads requestText with
    | none => EndpointResult.failed 500 "Expecting value: line 1 column 1 (char 0)"
    | some (Json.obj body) =>
      let original_model := dictGetD body "model" (Json.str "text-davinci-003")
      let stream := jsonTruthy (dictGetD body "stream" (Json.bool false))
      match transform_request_body cfg body with
      | Except.error e => EndpointResult.failed 500 e
      | Except.ok _transformed =>
        match forward_request "POST" outcome with
        | Except.error e => EndpointResult.failed 500 (pyStrHTTPError e)
        | Except.ok resp =>
          if stream then
            EndpointResult.streamed 200 "text/event-stream"
              (stream_response resp.lines original_model).1
              (stream_response resp.lines original_model).2
          else if resp.status = 200 then
            match json_loads resp.text with
            | none => EndpointResult.failed 500 "Expecting value: line 1 column 1 (char 0)"
            | some (Json.obj data) =>
              match transform_response_body cfg data original_model now with
              | Except.error e => EndpointResult.failed 500 e
              | Except.ok t => EndpointResult.jsonBody 200 t
            | some _ =>
              EndpointResult.failed 500 "TypeError: response body is not an object"
          else
            EndpointResult.failed 500 (pyStrHTTPError ⟨resp.status, resp.text⟩)
    | some _ =>
      EndpointResult.failed 500 "AttributeError: object has no attribute get"

/-- A concrete configuration used by closed theorems: the default
configuration produced by `load_config` when no config file exists
(authentication disabled, empty model mapping, default model
`llama-3.1-instruct-13b`). -/
def defaultConfig : ProxyConfig :=
  { model_mapping := []
    default_model := "llama-3.1-instruct-13b"
    authentication := { enabled := false, valid_api_keys := [] } }

/-- A concrete configuration with authentication enabled and allow-list
`["abc"]`, used by closed theorems. -/
def authConfig : ProxyConfig :=
  { model_mapping := []
    default_model := "llama-3.1-instruct-13b"
    authentication := { enabled := true, valid_api_keys := ["abc"] } }

/-! ## Helper lemmas -/

theorem dictLookup_dictSet {α : Type} (d : List (String × α)) (k : String) (v : α)
    (key : String) :
    dictLookup (dictSet d k v) key = if key = k then some v else dictLookup d key := by
  induction d with
  | nil =>
    by_cases h : key = k
    · simp [dictSet, dictLookup, h]
    · simp [dictSet, dictLookup, h, Ne.symm h]
  | cons p rest ih =>
    obtain ⟨k0, v0⟩ := p
    by_cases h0 : k0 = k
    · subst h0
      by_cases h : key = k0
      · simp [dictSet, dictLookup, h]
      · simp [dictSet, dictLookup, h, Ne.symm h]
    · by_cases h : key = k0
      · subst h
        simp [dictSet, dictLookup, h0, Ne.symm h0]
      · simp [dictSet, dictLookup, h0, h, Ne.symm h, ih]

theorem dictLookup_mem {α : Type} (d : List (String × α)) (key : String) (v : α)
    (h : dictLookup d key = some v) : (key, v) ∈ d := by
  induction d with
  | nil => simp [dictLookup] at h
  | cons p rest ih =>
    obtain ⟨k0, v0⟩ := p
    by_cases hk : k0 = key
    · subst hk
      simp [dictLookup] at h
      simp [h]
    · simp [dictLookup, hk] at h
      exact List.mem_cons_of_mem _ (ih h)

theorem findLast_eq_none {α : Type} (f : α → Bool) (l : List α)
    (h : ∀ a ∈ l, f a = false) : findLast f l = none := by
  induction l with
  | nil => rfl
  | cons a rest ih =>
    have ha : f a = false := h a (List.mem_cons_self a rest)
    have hrest : findLast f rest = none := ih fun b hb => h b (List.mem_cons_of_mem a hb)
    simp [findLast, hrest, ha]

theorem findLast_spec {α : Type} (f : α → Bool) (l : List α) (a : α)
    (h : findLast f l = some a) : a ∈ l ∧ f a = true := by
  induction l with
  | nil => simp [findLast] at h
  | cons b rest ih =>
    simp only [findLast] at h
    cases hr : findLast f rest with
    | some c =>
      rw [hr] at h
      cases h
      have := ih hr
      exact ⟨List.mem_cons_of_mem b this.1, this.2⟩
    | none =>
      rw [hr] at h
      by_cases hb : f b = true
      · simp [hb] at h
        subst h
        exact ⟨List.mem_cons_self b rest, hb⟩
      · simp [hb] at h

theorem findLast_isSome {α : Type} (f : α → Bool) (l : List α) (a : α)
    (ha : a ∈ l) (hf : f a = true) : ∃ b, findLast f l = some b := by
  induction l with
  | nil => simp at ha
  | cons c rest ih =>
    rcases List.mem_cons.mp ha with h | h
    · subst h
      cases hr : findLast f rest with
      | some b => exact ⟨b, by simp [findLast, hr]⟩
      | none => exact ⟨a, by simp [findLast, hr, hf]⟩
    · obtain ⟨b, hb⟩ := ih h
      exact ⟨b, by simp [findLast, hb]⟩

/-- The reverse-map comprehension, characterised entry by entry: the lookup
finds the key of the *last* mapping entry whose value matches. -/
theorem dictLookup_foldl_dictSet (m : List (String × String))
    (init : List (String × String)) (x : String) :
    dictLookup (m.foldl (fun acc p => dictSet acc p.2 p.1) init) x =
      match findLast (fun p => p.2 = x) m with
      | some p => some p.1
      | none => dictLookup init x := by
  induction m generalizing init with
  | nil => simp [findLast]
  | cons p rest ih =>
    obtain ⟨k0, v0⟩ := p
    simp only [List.foldl_cons]
    rw [ih]
    cases hr : findLast (fun q => q.2 = x) rest with
    | some q => simp [findLast, hr]
    | none =>
      simp only [findLast, hr]
      by_cases hv : v0 = x
      · subst hv
        simp [dictLookup_dictSet]
      · simp [dictLookup_dictSet, hv, Ne.symm hv]

theorem dictLookup_reverse_map (m : List (String × String)) (x : String) :
    dictLookup (reverse_map m) x =
      Option.map Prod.fst (findLast (fun p => p.2 = x) m) := by
  rw [reverse_map, dictLookup_foldl_dictSet]
  cases h : findLast (fun p => p.2 = x) m <;> simp [dictLookup]

/-- When a payload is well formed, `transform_request_body` succeeds and its
result is the input body with the `model` field set to `requestModelValue`. -/
theorem transform_request_body_eq (cfg : ProxyConfig) (body : List (String × Json))
    (h : ∀ v, dictLookup body "model" = some v → jsonHashable v = true) :
    transform_request_body cfg body =
      Except.ok (dictSet body "model" (requestModelValue cfg body)) := by
  unfold transform_request_body requestModelValue
  cases hm : dictLookup body "model" with
  | none => rfl
  | some v =>
    have hv := h v hm
    cases v <;> simp_all [map_model_value, jsonHashable]

theorem pyStripChars_cons_ne_nil (c : Char) (cs : List Char) (hc : isPySpace c = false) :
    pyStripChars (c :: cs) ≠ [] := by
  intro h
  have h1 : (c :: cs).dropWhile isPySpace = c :: cs := by
    simp [List.dropWhile_cons, hc]
  rw [pyStripChars, h1] at h
  have h2 : (c :: cs).reverse.dropWhile isPySpace = [] := by
    simpa using h
  have h3 := List.dropWhile_eq_nil_iff.mp h2 c (by simp)
  rw [hc] at h3
  simp at h3

theorem pyStrip_data_ne_empty (payload : String) :
    pyStrip ("data: " ++ payload) ≠ "" := by
  intro h
  have hd : pyStripChars (('d' : Char) :: 'a' :: 't' :: 'a' :: ':' :: ' ' :: payload.data) = [] := by
    have := congrArg String.data h
    simpa [pyStrip] using this
  exact pyStripChars_cons_ne_nil 'd' _ (by decide) hd

/-- Unfolding of `process_line` on a line carrying the SSE data marker: the
strip test cannot fire and the prefix match succeeds, leaving the sentinel
test, the JSON parse and the transform. -/
theorem process_line_data_eq (m : Json) (payload : String) :
    process_line m ("data: " ++ payload) =
      if pyStrip payload = "[DONE]" then Except.ok ["data: [DONE]\n\n"]
      else
        match json_loads payload with
        | some chunk =>
          match set_chunk_model m chunk with
          | Except.ok c => Except.ok ["data: " ++ json_dumps c ++ "\n\n"]
          | Except.error e => Except.error e
        | none => Except.ok ["data: " ++ payload ++ "\n\n"] := by
  unfold process_line
  rw [if_neg (pyStrip_data_ne_empty payload)]
  rfl

theorem bearerToken_eq_some (l t : List Char) :
    bearerToken l = some t ↔ l = 'B' :: 'e' :: 'a' :: 'r' :: 'e' :: 'r' :: ' ' :: t := by
  constructor
  · intro h
    unfold bearerToken at h
    split at h
    · cases h; rfl
    · cases h
  · intro h
    subst h
    rfl

/-! ## Claim theorems -/

/-- C1: The claim says that for a response body without `usage` and with
non-empty `choices`, `transform_response_body` synthesizes
`usage = (prompt_tokens 0, completion_tokens n, total_tokens n)` with `n` the
word count of the first choice, and that the example body
`(choices := [(message := (content := "one two three"))])` yields 3/3.  In
the code this is unreachable: line 244 dereferences `config.response`, a
field that `ProxyConfig` does not declare, so the function raises
`AttributeError` on this very input (and on every other) instead of
returning the synthesized usage block. -/
theorem usage_backfill_attribute_error :
    transform_response_body defaultConfig
      [("choices", Json.arr [Json.obj [("message", Json.obj [("content", Json.str "one two three")])]])]
      (Json.str "gpt-3.5-turbo") 1700000000 =
      Except.error "AttributeError: ProxyConfig object has no attribute response" := rfl

/-- C2: The claim says a transport timeout surfaces to the client as 504 and
any other transport error as 502 — not a generic 500.  `forward_request`
does raise the 504/502 conditions (first two conjuncts), but both are
`Exception`s, so the blanket `except Exception` handler of the endpoint
(lines 449-451) catches them and re-raises `HTTPException(500, str(e))`:
the client-visible status for both failure classes is 500 (last two
conjuncts). -/
theorem gateway_errors_reach_client_as_500 :
    forward_request "POST" ForwardOutcome.timeout =
      Except.error ⟨504, "Backend timeout"⟩ ∧
    forward_request "POST" (ForwardOutcome.requestError "Connection refused") =
      Except.error ⟨502, "Backend error: Connection refused"⟩ ∧
    chat_completions defaultConfig none "\x7b\x7d" ForwardOutcome.timeout 0 =
      EndpointResult.failed 500 "504: Backend timeout" ∧
    chat_completions defaultConfig none "\x7b\x7d"
      (ForwardOutcome.requestError "Connection refused") 0 =
      EndpointResult.failed 500 "502: Backend error: Connection refused" :=
  ⟨rfl, rfl, rfl, rfl⟩

/-- C3 counterexample: the claim says every `data: ` line whose payload
parses as JSON is re-emitted (model overwritten when present) and that no
exception is ever raised.  The payload `5` parses as JSON, yet the
membership test `"model" in chunk` raises `TypeError` on the resulting
integer — the event is not emitted and the generator aborts. -/
theorem stream_scalar_payload_raises_counterexample :
    json_loads "5" = some (Json.num 5) ∧
    stream_response ["data: 5"] (Json.str "gpt-3.5-turbo") =
      ([], some "TypeError: argument of type int is not iterable") :=
  ⟨rfl, rfl⟩

/-- C3 amended: an empty or whitespace-only line produces no output; a
`data: ` line whose payload parses as a JSON *object* (and does not strip to
the sentinel) is re-emitted re-serialized with its `model` entry, when
present, overwritten by the original external model name; and a `data: `
line whose payload fails JSON parsing (and does not strip to the sentinel)
is re-emitted with the raw payload unchanged in the same framing.  (For
payloads parsing to non-object JSON values the membership test or item
assignment can instead raise `TypeError`, as the counterexample shows.) -/
theorem process_line_amended (m : Json) (line payload : String)
    (fields : List (String × Json)) :
    (pyStrip line = "" → process_line m line = Except.ok []) ∧
    (pyStrip payload ≠ "[DONE]" → json_loads payload = some (Json.obj fields) →
      process_line m ("data: " ++ payload) =
        Except.ok ["data: " ++ json_dumps (Json.obj
          (if dictContains fields "model" then dictSet fields "model" m else fields)) ++
          "\n\n"]) ∧
    (pyStrip payload ≠ "[DONE]" → json_loads payload = none →
      process_line m ("data: " ++ payload) =
        Except.ok ["data: " ++ payload ++ "\n\n"]) := by
  refine ⟨?_, ?_, ?_⟩
  · intro h
    unfold process_line
    rw [if_pos h]
  · intro hdone hparse
    rw [process_line_data_eq, if_neg hdone, hparse]
    by_cases hc : dictContains fields "model" <;> simp [set_chunk_model, hc]
  · intro hdone hparse
    rw [process_line_data_eq, if_neg hdone, hparse]

theorem process_line_amended_witness :
    process_line (Json.str "gpt-3.5-turbo") "   " = Except.ok [] ∧
    process_line (Json.str "gpt-3.5-turbo") ("data: " ++ "\x7b\"model\": \"llama\"\x7d") =
      Except.ok ["data: " ++ json_dumps (Json.obj
        (if dictContains [("model", Json.str "llama")] "model" then
          dictSet [("model", Json.str "llama")] "model" (Json.str "gpt-3.5-turbo")
        else [("model", Json.str "llama")])) ++ "\n\n"] ∧
    process_line (Json.str "gpt-3.5-turbo") ("data: " ++ "\x7bnot valid json") =
      Except.ok ["data: " ++ "\x7bnot valid json" ++ "\n\n"] :=
  ⟨(process_line_amended (Json.str "gpt-3.5-turbo") "   " "x" []).1 rfl,
   (process_line_amended (Json.str "gpt-3.5-turbo") "x" "\x7b\"model\": \"llama\"\x7d"
      [("model", Json.str "llama")]).2.1 (by decide) rfl,
   (process_line_amended (Json.str "gpt-3.5-turbo") "x" "\x7bnot valid json" []).2.2
      (by decide) rfl⟩

/-- C4 counterexample: the claim says that after a `[DONE]` sentinel line no
further output is produced for any later input line.  Feeding the sentinel
twice produces two framed sentinel events: the generator `continue`s after
re-emitting `[DONE]` and keeps transforming whatever follows. -/
theorem stream_done_not_terminal_counterexample :
    stream_response ["data: [DONE]", "data: [DONE]"] (Json.str "gpt-3.5-turbo") =
      (["data: [DONE]\n\n", "data: [DONE]\n\n"], none) := rfl

/-- C4 amended: a `data: ` line whose payload strips to `[DONE]` is
re-emitted re-framed with the data marker and event separator, and
processing then *continues*: the remaining input lines are transformed
exactly as if no sentinel had been seen (the stream only ends when the
backend stops producing lines). -/
theorem stream_done_reemit_and_continue (m : Json) (rest : List String) :
    stream_response ("data: [DONE]" :: rest) m =
      ("data: [DONE]\n\n" :: (stream_response rest m).1, (stream_response rest m).2) := by
  have h : process_line m "data: [DONE]" = Except.ok ["data: [DONE]\n\n"] := rfl
  simp [stream_response, h]

/-- C5: For a name that is not a key of the model mapping, the forward
lookup returns it unchanged (and cannot error, being a total function); and,
independently, for a name that is not a value of the mapping, the reverse
lookup returns it unchanged.  Each direction is conditioned only on its own
hypothesis: a mapping *value* used as input still gets forward pass-through,
and a mapping *key* still gets reverse pass-through. -/
theorem map_model_name_unmapped_identity (mapping : List (String × String)) (x : String) :
    (dictLookup mapping x = none → map_model_name mapping x false = x) ∧
    ((∀ p ∈ mapping, p.2 ≠ x) → map_model_name mapping x true = x) := by
  constructor
  · intro hkey
    simp [map_model_name, dictGetD, hkey]
  · intro hval
    have hnone : findLast (fun p => p.2 = x) mapping = none :=
      findLast_eq_none _ _ fun p hp => by simpa using hval p hp
    simp [map_model_name, dictGetD, dictLookup_reverse_map, hnone]

theorem map_model_name_unmapped_identity_witness :
    map_model_name [("gpt-3.5-turbo", "llama-3.1-instruct-13b")] "llama-3.1-instruct-13b"
      false = "llama-3.1-instruct-13b" ∧
    map_model_name [("gpt-3.5-turbo", "llama-3.1-instruct-13b")] "some-random-model" false =
      "some-random-model" ∧
    map_model_name [("gpt-3.5-turbo", "llama-3.1-instruct-13b")] "some-random-model" true =
      "some-random-model" :=
  ⟨(map_model_name_unmapped_identity [("gpt-3.5-turbo", "llama-3.1-instruct-13b")]
      "llama-3.1-instruct-13b").1 rfl,
   (map_model_name_unmapped_identity [("gpt-3.5-turbo", "llama-3.1-instruct-13b")]
      "some-random-model").1 rfl,
   (map_model_name_unmapped_identity [("gpt-3.5-turbo", "llama-3.1-instruct-13b")]
      "some-random-model").2 (by decide)⟩

/-- C6: For an external name whose internal target has exactly one external
preimage, the round trip through forward and reverse lookup returns the
original name; and — unconditionally, for *every* mapping, including a
pure-collision mapping with no uniquely-preimaged entry — the reverse table
resolves an internal name to the key of the *last* mapping entry carrying
that value (last-entry-wins during the dict-comprehension construction of
the reverse map). -/
theorem map_model_name_roundtrip_lastwins (mapping : List (String × String)) :
    (∀ e i, dictLookup mapping e = some i →
      (∀ p ∈ mapping, p.2 = i → p.1 = e) →
      map_model_name mapping (map_model_name mapping e false) true = e) ∧
    ∀ x, dictLookup (reverse_map mapping) x =
      Option.map Prod.fst (findLast (fun p => p.2 = x) mapping) := by
  refine ⟨?_, fun x => dictLookup_reverse_map mapping x⟩
  intro e i he huniq
  have h1 : map_model_name mapping e false = i := by
    simp [map_model_name, dictGetD, he]
  rw [h1]
  have hmem : (e, i) ∈ mapping := dictLookup_mem _ _ _ he
  obtain ⟨p, hp⟩ := findLast_isSome (fun p => p.2 = i) mapping (e, i) hmem (by simp)
  have hspec := findLast_spec _ _ _ hp
  have hp1 : p.1 = e := huniq p hspec.1 (by simpa using hspec.2)
  simp [map_model_name, dictGetD, dictLookup_reverse_map, hp, hp1]

theorem map_model_name_roundtrip_lastwins_witness :
    map_model_name [("gpt-4", "llama"), ("gpt-3.5-turbo", "llama2")]
      (map_model_name [("gpt-4", "llama"), ("gpt-3.5-turbo", "llama2")]
        "gpt-3.5-turbo" false) true = "gpt-3.5-turbo" ∧
    dictLookup (reverse_map
      [("gpt-3.5-turbo", "llama-3.1-instruct-13b"), ("gpt-4", "llama-3.1-instruct-13b"),
       ("gpt-4-turbo", "llama-3.1-instruct-13b")]) "llama-3.1-instruct-13b" =
      some "gpt-4-turbo" := by
  refine ⟨?_, ?_⟩
  · exact (map_model_name_roundtrip_lastwins
      [("gpt-4", "llama"), ("gpt-3.5-turbo", "llama2")]).1 "gpt-3.5-turbo" "llama2" rfl
      (by decide)
  · exact ((map_model_name_roundtrip_lastwins
      [("gpt-3.5-turbo", "llama-3.1-instruct-13b"), ("gpt-4", "llama-3.1-instruct-13b"),
       ("gpt-4-turbo", "llama-3.1-instruct-13b")]).2 "llama-3.1-instruct-13b").trans (by rfl)

/-- C7 counterexample: the claim quantifies over every request body, but a
body whose `model` value is a JSON array (Python list, unhashable) makes
`config.model_mapping.get(model, model)` raise `TypeError` instead of
returning a transformed body. -/
theorem transform_request_unhashable_counterexample :
    transform_request_body defaultConfig [("model", Json.arr [])] =
      Except.error "TypeError: unhashable type: list" := rfl

/-- C7 amended: for every request body whose `model` value, when present, is
hashable (not a JSON array or object), `transform_request_body` returns a
new body whose `model` field holds the mapped internal name (strings are
mapped through the table, other scalars pass through `dict.get` unchanged)
or, when the field was absent, the configured default model — and every
other field is exactly that of the input.  Bodies with an array or object
`model` value instead raise `TypeError`. -/
theorem transform_request_body_amended (cfg : ProxyConfig) (body : List (String × Json))
    (h : ∀ v, dictLookup body "model" = some v → jsonHashable v = true) :
    transform_request_body cfg body =
      Except.ok (dictSet body "model" (requestModelValue cfg body)) ∧
    dictLookup (dictSet body "model" (requestModelValue cfg body)) "model" =
      some (requestModelValue cfg body) ∧
    ∀ k, k ≠ "model" →
      dictLookup (dictSet body "model" (requestModelValue cfg body)) k =
        dictLookup body k := by
  refine ⟨transform_request_body_eq cfg body h, ?_, ?_⟩
  · simp [dictLookup_dictSet]
  · intro k hk
    simp [dictLookup_dictSet, hk]

theorem transform_request_body_amended_witness :
    transform_request_body defaultConfig
      [("model", Json.str "gpt-4"), ("temperature", Json.num 1)] =
      Except.ok (dictSet [("model", Json.str "gpt-4"), ("temperature", Json.num 1)] "model"
        (requestModelValue defaultConfig
          [("model", Json.str "gpt-4"), ("temperature", Json.num 1)])) ∧
    dictLookup (dictSet [("model", Json.str "gpt-4"), ("temperature", Json.num 1)] "model"
        (requestModelValue defaultConfig
          [("model", Json.str "gpt-4"), ("temperature", Json.num 1)])) "temperature" =
      dictLookup [("model", Json.str "gpt-4"), ("temperature", Json.num 1)] "temperature" := by
  have h := transform_request_body_amended defaultConfig
    [("model", Json.str "gpt-4"), ("temperature", Json.num 1)]
    (fun v hv => by
      simp [dictLookup] at hv
      rw [← hv]
      rfl)
  exact ⟨h.1, h.2.2 "temperature" (by decide)⟩

/-- C8: The claim says `transform_response_body` is idempotent — that
re-normalizing an already-normalized body is a no-op.  There is no "result"
to re-apply the function to: because of the `config.response` attribute
error at line 244 (see C1), the function raises on *every* input, including
a body that already carries `model`, `object`, `created` and `usage`, so the
claimed equation has no instance at all. -/
theorem response_normalize_idempotence_unreachable :
    transform_response_body defaultConfig
      [("model", Json.str "gpt-3.5-turbo"), ("object", Json.str "chat.completion"),
       ("created", Json.num 1700000000),
       ("choices", Json.arr [Json.obj [("message", Json.obj [("content", Json.str "hi")])]]),
       ("usage", Json.obj [("prompt_tokens", Json.num 0), ("completion_tokens", Json.num 1),
         ("total_tokens", Json.num 1)])]
      (Json.str "gpt-3.5-turbo") 1700000000 =
      Except.error "AttributeError: ProxyConfig object has no attribute response" := rfl

/-- C9: A `/v1/chat/completions` or `/v1/completions` request whose parsed
body has `stream: true` is answered with a status-200 `text/event-stream`
response built from `stream_response`, for *every* backend reply — the
backend status code is never consulted on the streaming path (the non-200
propagation branch lives behind `if stream:` and is reached only for
non-streaming requests). -/
theorem streaming_requests_always_200 (cfg : ProxyConfig) (auth : Option String)
    (text : String) (body : List (String × Json)) (resp : BackendResponse) (now : Int)
    (hauth : validate_api_key cfg auth = true)
    (hparse : json_loads text = some (Json.obj body))
    (hstream : dictLookup body "stream" = some (Json.bool true))
    (hmodel : ∀ v, dictLookup body "model" = some v → jsonHashable v = true) :
    chat_completions cfg auth text (ForwardOutcome.ok resp) now =
      EndpointResult.streamed 200 "text/event-stream"
        (stream_response resp.lines (dictGetD body "model" (Json.str "gpt-3.5-turbo"))).1
        (stream_response resp.lines (dictGetD body "model" (Json.str "gpt-3.5-turbo"))).2 ∧
    completions cfg auth text (ForwardOutcome.ok resp) now =
      EndpointResult.streamed 200 "text/event-stream"
        (stream_response resp.lines (dictGetD body "model" (Json.str "text-davinci-003"))).1
        (stream_response resp.lines (dictGetD body "model" (Json.str "text-davinci-003"))).2 := by
  have htr := transform_request_body_eq cfg body hmodel
  have hs : jsonTruthy (dictGetD body "stream" (Json.bool false)) = true := by
    simp [dictGetD, hstream, jsonTruthy]
  have hf : forward_request "POST" (ForwardOutcome.ok resp) = Except.ok resp := by
    unfold forward_request
    rw [if_pos (Or.inr (Or.inl rfl))]
  constructor
  · simp [chat_completions, hauth, hparse, htr, hs, hf]
  · simp [completions, hauth, hparse, htr, hs, hf]

theorem streaming_requests_always_200_witness :
    chat_completions defaultConfig none "\x7b\"stream\": true\x7d"
      (ForwardOutcome.ok ⟨500, "oops", ["data: [DONE]"]⟩) 0 =
      EndpointResult.streamed 200 "text/event-stream" ["data: [DONE]\n\n"] none := by
  have h := (streaming_requests_always_200 defaultConfig none "\x7b\"stream\": true\x7d"
    [("stream", Json.bool true)] ⟨500, "oops", ["data: [DONE]"]⟩ 0 rfl rfl rfl
    (fun v hv => by simp [dictLookup] at hv)).1
  exact h.trans (by rfl)

/-- C10: With authentication enabled, `validate_api_key` accepts exactly the
headers of the form `Bearer ` (exact, case-sensitive) followed by a member
of the allow-list; a missing header is rejected; with authentication
disabled every header (including a missing one) is accepted; and whenever
validation fails, both completion endpoints answer 401 `Invalid API key`
without regard to the backend (the `outcome` argument), i.e. before any
outbound call matters. -/
theorem validate_api_key_characterization (cfg : ProxyConfig) (a : String)
    (auth : Option String) (text : String) (outcome : ForwardOutcome) (now : Int) :
    (cfg.authentication.enabled = true →
      (validate_api_key cfg (some a) = true ↔
        ∃ t : String, a = "Bearer " ++ t ∧ t ∈ cfg.authentication.valid_api_keys)) ∧
    (cfg.authentication.enabled = true → validate_api_key cfg none = false) ∧
    (cfg.authentication.enabled = false → validate_api_key cfg auth = true) ∧
    (validate_api_key cfg auth = false →
      chat_completions cfg auth text outcome now =
        EndpointResult.failed 401 "Invalid API key" ∧
      completions cfg auth text outcome now =
        EndpointResult.failed 401 "Invalid API key") := by
  refine ⟨?_, ?_, ?_, ?_⟩
  · intro hen
    unfold validate_api_key
    rw [hen]
    simp only [Bool.not_true, Bool.false_eq_true, if_false]
    cases hb : bearerToken a.data with
    | some token =>
      have ha : a.data = 'B' :: 'e' :: 'a' :: 'r' :: 'e' :: 'r' :: ' ' :: token :=
        (bearerToken_eq_some _ _).mp hb
      have haeq : a = "Bearer " ++ (⟨token⟩ : String) := by
        apply String.ext
        rw [ha]
        rfl
      constructor
      · intro hc
        exact ⟨⟨token⟩, haeq, List.elem_iff.mp hc⟩
      · rintro ⟨t, hat, hmem⟩
        have h1 : a.data = 'B' :: 'e' :: 'a' :: 'r' :: 'e' :: 'r' :: ' ' :: t.data :=
          congrArg String.data hat
        rw [ha] at h1
        simp only [List.cons.injEq, true_and] at h1
        have ht : t = (⟨token⟩ : String) := String.ext h1.symm
        show cfg.authentication.valid_api_keys.contains (⟨token⟩ : String) = true
        rw [← ht]
        exact List.elem_iff.mpr hmem
    | none =>
      simp only [Bool.false_eq_true, false_iff]
      rintro ⟨t, hat, _⟩
      have h1 : a.data = 'B' :: 'e' :: 'a' :: 'r' :: 'e' :: 'r' :: ' ' :: t.data :=
        congrArg String.data hat
      have h2 : bearerToken a.data = some t.data := by
        rw [h1]
        rfl
      rw [hb] at h2
      cases h2
  · intro hen
    unfold validate_api_key
    rw [hen]
    rfl
  · intro hen
    unfold validate_api_key
    rw [hen]
    rfl
  · intro hv
    constructor
    · unfold chat_completions
      rw [hv]
      rfl
    · unfold completions
      rw [hv]
      rfl

theorem validate_api_key_characterization_witness :
    validate_api_key authConfig (some "Bearer abc") = true ∧
    validate_api_key defaultConfig none = true ∧
    validate_api_key authConfig none = false ∧
    chat_completions authConfig (some "bearer abc") "\x7b\x7d" ForwardOutcome.timeout 0 =
      EndpointResult.failed 401 "Invalid API key" := by
  have h1 := validate_api_key_characterization authConfig "Bearer abc" none "\x7b\x7d"
    ForwardOutcome.timeout 0
  have h2 := validate_api_key_characterization defaultConfig "Bearer abc" none "\x7b\x7d"
    ForwardOutcome.timeout 0
  have h3 := validate_api_key_characterization authConfig "Bearer abc"
    (some "bearer abc") "\x7b\x7d" ForwardOutcome.timeout 0
  refine ⟨?_, ?_, ?_, ?_⟩
  · exact (h1.1 rfl).mpr ⟨"abc", rfl, by decide⟩
  · exact h2.2.2.1 rfl
  · exact h1.2.1 rfl
  · exact (h3.2.2.2 rfl).1

end ProxyServer
